import Mathlib

/-!
Verification development for the video-warning repository.

Shallow embedding of the real-time analysis engine:
  * `engine_alert_callback` (backend/app/websocket/handlers.py) — the alert
    merge / escalation / de-escalation state machine over `AlertLog` rows;
  * `decide_alert` (backend/app/engine/manager.py, `_handle_analysis_events`)
    — the decision step that turns a tracker event plus a recognition outcome
    into the alert payload handed to the callback;
  * `YoloTracker` per-track state (backend/app/engine/analyzers/tracker.py) —
    best-shot bookkeeping, `_should_save_face` cooldown gating and the
    loitering (`BODY_DETECTED`) emission;
  * the bounded frame queue and reconnect backoff of `CameraCapture`
    (backend/app/engine/capture/camera_capture.py);
  * `FaceDatabase.recognize` (backend/app/engine/recognition/face_database.py);
  * `AlertCooldownManager` (backend/app/engine/recognition/face_recognizer.py).

Timestamps and scores are Python floats in the source; they are modelled as
exact rationals (`ℚ`).  Fallible dictionary indexing is modelled with
`Option`.
-/

/-- `AlertType` enum (backend/app/models/alert.py). -/
inductive AlertType where
  | stranger
  | known
  | blacklist
deriving DecidableEq, Repr

/-- `AlertLevel` enum (backend/app/models/alert.py). -/
inductive AlertLevel where
  | info
  | warning
  | critical
deriving DecidableEq, Repr

/-- `AlertStatus` enum (backend/app/models/alert.py). -/
inductive AlertStatus where
  | pending
  | processed
  | ignored
deriving DecidableEq, Repr

/-- One entry of the JSON `image_history` list appended by
`engine_alert_callback`: the dict literal with keys ts / face / score. -/
structure HistoryEntry where
  ts : ℚ
  face : Option String
  score : ℚ
deriving DecidableEq, Repr

/-- The fields of an `AlertLog` row (backend/app/models/alert.py) that the
alert callback reads or writes.  `status` has the column default
`AlertStatus.PENDING`; `extra_person_name` stands for the value stored under
the key person_name of the JSON `extra_data` column. -/
structure AlertLog where
  id : Nat
  track_id : Option String
  camera_id : Int
  alert_type : AlertType
  alert_level : AlertLevel
  person_id : Option Int
  confidence : Option ℚ
  face_image_path : Option String
  best_body_image_path : Option String
  full_image_path : Option String
  image_history : List HistoryEntry
  status : AlertStatus
  extra_person_name : Option String
  end_time : Option ℚ
  created_at : ℚ
deriving DecidableEq, Repr

/-- The `alert_data` dict built by `EngineManager._handle_analysis_events`
(backend/app/engine/manager.py, lines 313-324).  The dict has no person_id
key, so `alert_data.get("person_id")` yields `None`; we keep the field (with
default `none`) to model that `.get`. -/
structure AlertData where
  track_id : String
  camera_id : Int
  alert_type : AlertType
  alert_level : AlertLevel
  person_name : Option String
  person_id : Option Int := none
  face_image : Option String
  body_image : Option String
  full_image : Option String
  score : ℚ
deriving DecidableEq, Repr

/-- Python truthiness of an optional string (`if alert_data.get('face_image'):`):
`None` and the empty string are falsy. -/
def strTruthy : Option String → Bool
  | some s => s ≠ ""
  | none => false

/-- Result of one run of `engine_alert_callback`: the row as committed, whether
it was newly created, and how many times `push_alert` was invoked for it. -/
structure CallbackResult where
  record : AlertLog
  is_new : Bool
  pushes : Nat
deriving DecidableEq, Repr

/-- The merge common tail of `engine_alert_callback` (handlers.py lines
275-283): set `end_time` to now and append one `image_history` entry. -/
def merge_tail (ex : AlertLog) (d : AlertData) (now : ℚ) : AlertLog :=
  { ex with
      end_time := some now
      image_history := ex.image_history ++ [⟨now, d.face_image, d.score⟩] }

/-- `engine_alert_callback` (backend/app/websocket/handlers.py lines 207-320)
as a pure function.  `existing` is the result of the most-recent-row lookup
for `(track_id, camera_id)`; `new_id` is the id the database would assign on
insert.  The three merge branches are, in source order: known-person
de-escalation, INFO→CRITICAL escalation, and the silent image update (which
clears `should_push`).  A missing row triggers the creation branch, whose
`status` is the column default `pending`. -/
def engine_alert_callback (existing : Option AlertLog) (d : AlertData)
    (now : ℚ) (new_id : Nat) : CallbackResult :=
  match existing with
  | some ex =>
    if d.alert_type = AlertType.known then
      let ex1 : AlertLog :=
        { ex with
            alert_type := AlertType.known
            alert_level := AlertLevel.info
            person_id := d.person_id
            extra_person_name :=
              if strTruthy d.person_name then d.person_name else ex.extra_person_name
            status := AlertStatus.processed
            face_image_path :=
              if strTruthy d.face_image then d.face_image else ex.face_image_path }
      { record := merge_tail ex1 d now, is_new := false, pushes := 1 }
    else if ex.alert_level = AlertLevel.info ∧ d.alert_level = AlertLevel.critical then
      let ex1 : AlertLog :=
        { ex with
            alert_level := AlertLevel.critical
            alert_type := AlertType.stranger
            face_image_path := d.face_image
            status := AlertStatus.pending }
      { record := merge_tail ex1 d now, is_new := false, pushes := 1 }
    else
      let ex1 : AlertLog :=
        { ex with
            face_image_path :=
              if strTruthy d.face_image then d.face_image else ex.face_image_path
            best_body_image_path :=
              if strTruthy d.body_image then d.body_image else ex.best_body_image_path }
      { record := merge_tail ex1 d now, is_new := false, pushes := 0 }
  | none =>
    { record :=
        { id := new_id
          track_id := some d.track_id
          camera_id := d.camera_id
          alert_type := d.alert_type
          alert_level := d.alert_level
          person_id := none
          confidence := some d.score
          face_image_path := d.face_image
          best_body_image_path := d.body_image
          full_image_path := d.full_image
          image_history := [⟨now, d.face_image, d.score⟩]
          status := AlertStatus.pending
          extra_person_name := d.person_name
          end_time := none
          created_at := now }
      is_new := true
      pushes := 1 }

/-- The fields of a `TrackerEvent` (backend/app/engine/analyzers/tracker.py)
that `_handle_analysis_events` consults. `has_face_image` mirrors
`event.face_image is not None`. -/
structure EngineEvent where
  type : String
  track_id : Int
  face_score : ℚ
  body_score : ℚ
  alert_level : AlertLevel
  has_face_image : Bool
deriving DecidableEq, Repr

/-- The recognition step of `_handle_analysis_events` (manager.py lines
278-297): `is_known` and `person_name` from the CompreFace response, modelled
as an optional (similarity, subject-name) pair. -/
def compute_is_known (ev : EngineEvent) (recog : Option (ℚ × String))
    (threshold : ℚ) : Bool × Option String :=
  if ev.type = "FACE_DETECTED" ∧ ev.has_face_image then
    match recog with
    | some sn => if threshold ≤ sn.1 then (true, some sn.2) else (false, none)
    | none => (false, none)
  else (false, none)

/-- The decision step of `_handle_analysis_events` (manager.py lines 299-324):
alert type/level selection and the `alert_data` dict.  A known match forces
(known, info) and renames the event type, a body event forces
(stranger, warning), otherwise the event keeps its own level; the score field
reads `face_score` unless the (possibly renamed) type is BODY_DETECTED. -/
def decide_alert (camera_id : Int) (ev : EngineEvent) (is_known : Bool)
    (person_name face_path body_path full_path : Option String) : AlertData :=
  let newType := if is_known then "KNOWN_PERSON_DETECTED" else ev.type
  { track_id := toString ev.track_id
    camera_id := camera_id
    alert_type := if is_known then AlertType.known else AlertType.stranger
    alert_level :=
      if is_known then AlertLevel.info
      else if ev.type = "BODY_DETECTED" then AlertLevel.warning
      else ev.alert_level
    person_name := person_name
    face_image := face_path
    body_image := body_path
    full_image := full_path
    score := if newType ≠ "BODY_DETECTED" then ev.face_score else ev.body_score }

/-- `TrackedPerson` (tracker.py lines 38-59): per-track best-shot and
emission bookkeeping.  Images and boxes are omitted: the emission logic reads
only the scores and timestamps modelled here. -/
structure TrackedPerson where
  id : Int
  start_time : ℚ
  last_seen_time : ℚ
  best_face_score : ℚ
  best_body_score : ℚ
  last_save_time : ℚ
  saved_face_score : ℚ
  is_stranger_body_reported : Bool
deriving DecidableEq, Repr

/-- Registration of a new track id (`TrackedPerson.__init__`): zero scores,
zero save state, loitering flag clear. -/
def TrackedPerson.register (track_id : Int) (start : ℚ) : TrackedPerson :=
  { id := track_id
    start_time := start
    last_seen_time := start
    best_face_score := 0
    best_body_score := 0
    last_save_time := 0
    saved_face_score := 0
    is_stranger_body_reported := false }

/-- `TrackedPerson.update_face`: replace the stored best face score only if
the confidence-scaled score is strictly higher. -/
def update_face (p : TrackedPerson) (conf : ℚ) : TrackedPerson :=
  if conf * 1000 > p.best_face_score then
    { p with best_face_score := conf * 1000 }
  else p

/-- `YoloTracker._should_save_face` (tracker.py lines 253-272) as a state
transition: inside the cooldown window a score below `saved * 1.2` is
rejected; then the quality floor 600 and the 5% improvement gate apply; an
emission records the emission time and score on the track.  `12/10` and
`105/100` are the exact values of the source literals `1.2` and `1.05`. -/
def should_save_face (cooldown : ℚ) (p : TrackedPerson) (now_ts : ℚ)
    (current_score : ℚ) : Bool × TrackedPerson :=
  if now_ts - p.last_save_time < cooldown ∧
      current_score < p.saved_face_score * (12/10) then
    (false, p)
  else if current_score < 600 then
    (false, p)
  else if current_score > p.saved_face_score * (105/100) then
    (true, { p with last_save_time := now_ts, saved_face_score := current_score })
  else
    (false, p)

/-- One per-frame observation for a single visible track: the frame time and
the confidence of a face matched to this track in this frame, if any.  Body
box updates touch only `best_body_*`, which the emission logic never reads. -/
structure TrackObs where
  time : ℚ
  face_conf : Option ℚ
deriving DecidableEq, Repr

/-- An event emitted by the tracker for one track: a FACE_DETECTED emission
carrying the emission-time current score, or a BODY_DETECTED loitering
emission. -/
inductive TrackerEventKind where
  | face (time : ℚ) (score : ℚ)
  | body (time : ℚ)
deriving DecidableEq, Repr

/-- The loitering check of `YoloTracker.process` (tracker.py lines 206-214):
fire iff the best face score is below 300, the dwell time exceeds 1 second,
and the track has not been flagged; firing sets the flag. -/
def loiter_check (p : TrackedPerson) (timestamp : ℚ) : TrackedPerson × Bool :=
  if p.best_face_score < 300 ∧ timestamp - p.start_time > 1 ∧
      p.is_stranger_body_reported = false then
    ({ p with is_stranger_body_reported := true }, true)
  else
    (p, false)

/-- The face phase of one `process` call for a single track (tracker.py lines
198-204): `update_face` with the detection confidence, then
`_should_save_face` called with `conf * 1000`. -/
def face_phase (cooldown : ℚ) (p : TrackedPerson) (o : TrackObs) :
    TrackedPerson × List TrackerEventKind :=
  match o.face_conf with
  | none => (p, [])
  | some conf =>
    let p1 := update_face p conf
    let r := should_save_face cooldown p1 o.time (conf * 1000)
    (r.2, if r.1 then [TrackerEventKind.face o.time (conf * 1000)] else [])

/-- One `YoloTracker.process` call restricted to a single visible track:
refresh `last_seen_time`, run the face phase, then the loitering check. -/
def track_frame (cooldown : ℚ) (p : TrackedPerson) (o : TrackObs) :
    TrackedPerson × List TrackerEventKind :=
  let f := face_phase cooldown { p with last_seen_time := o.time } o
  let l := loiter_check f.1 o.time
  (l.1, f.2 ++ if l.2 then [TrackerEventKind.body o.time] else [])

/-- A track lifetime: fold `track_frame` over the frames in which the track
stays visible, from registration until eviction, collecting the emitted
events in order. -/
def run_track (cooldown : ℚ) (p : TrackedPerson) :
    List TrackObs → TrackedPerson × List TrackerEventKind
  | [] => (p, [])
  | o :: rest =>
    let s := track_frame cooldown p o
    let t := run_track cooldown s.1 rest
    (t.1, s.2 ++ t.2)

/-- The FACE_DETECTED emissions of an event list, as (time, score) pairs. -/
def faceEmissions (evs : List TrackerEventKind) : List (ℚ × ℚ) :=
  evs.filterMap fun e =>
    match e with
    | TrackerEventKind.face t s => some (t, s)
    | TrackerEventKind.body _ => none

/-- The number of BODY_DETECTED emissions in an event list. -/
def bodyEventCount (evs : List TrackerEventKind) : Nat :=
  evs.countP fun e =>
    match e with
    | TrackerEventKind.body _ => true
    | TrackerEventKind.face _ _ => false

/-- The frame queue of `CameraCapture` with Python `queue.Queue` semantics:
the queue is full iff `maxsize` is positive and the length has reached it (a
non-positive `maxsize` means unbounded). -/
structure FrameQueue (α : Type) where
  maxsize : Nat
  items : List α
deriving DecidableEq, Repr

/-- The enqueue step of `CameraCapture._capture_loop` (camera_capture.py
lines 348-357): `put_nowait`; on `queue.Full`, `get_nowait` the head and
retry the put.  The two exception paths that cannot arise for a single
producer — `get_nowait` on an empty-but-full queue, and a retried put on a
still-full queue — are modelled as dropping the new frame. -/
def push_frame {α : Type} (q : FrameQueue α) (f : α) : FrameQueue α :=
  if 0 < q.maxsize ∧ q.maxsize ≤ q.items.length then
    match q.items with
    | [] => q
    | _ :: rest =>
      if 0 < q.maxsize ∧ q.maxsize ≤ rest.length then { q with items := rest }
      else { q with items := rest ++ [f] }
  else
    { q with items := q.items ++ [f] }

/-- A producer burst with no consumer: enqueue the frames in order. -/
def enqueue_all {α : Type} (q : FrameQueue α) (fs : List α) : FrameQueue α :=
  fs.foldl push_frame q

/-- The sequence of waits of `CameraCapture._reconnect` (camera_capture.py
lines 247-277) between successive failed attempts: the first wait is
`reconnect_interval`, and each later wait is the previous one multiplied by
`reconnect_backoff` and capped at `max_reconnect_interval`. -/
def reconnect_wait (r b M : ℚ) : Nat → ℚ
  | 0 => r
  | n + 1 => min (reconnect_wait r b M n * b) M

/-- `MatchResult` (face_database.py lines 37-56). -/
structure MatchResult where
  person_id : Int
  name : String
  group_id : Option Int
  group_name : Option String
  similarity : ℚ
  is_stranger : Bool
deriving DecidableEq, Repr

/-- `PersonFeature` (face_database.py lines 20-34): the fields `recognize`
reads. -/
structure PersonFeature where
  person_id : Int
  name : String
  group_id : Option Int
  group_name : Option String
  embeddings : List (List ℚ)
deriving DecidableEq, Repr

/-- `FaceDatabase` state: the `_persons` dict as an association list, the
precomputed `_feature_matrix` (`None` when the registry is empty) and the
row-aligned `_feature_ids`.  Feature vectors are taken pre-normalised: the
floating-point L2 normalisation in `_rebuild_feature_matrix` and
`_cosine_similarity` is abstracted away, so a plain dot product below is the
cosine similarity the source computes. -/
structure FaceDatabase where
  similarity_threshold : ℚ
  persons : List (Int × PersonFeature)
  feature_matrix : Option (List (List ℚ))
  feature_ids : List Int
deriving DecidableEq, Repr

/-- `np.dot` of two feature vectors. -/
def dotProduct : List ℚ → List ℚ → ℚ
  | a :: as, b :: bs => a * b + dotProduct as bs
  | _, _ => 0

/-- `FaceDatabase._cosine_similarity` on pre-normalised vectors: one dot
product per stored row. -/
def cosine_similarity (features : List (List ℚ)) (query : List ℚ) : List ℚ :=
  features.map fun row => dotProduct row query

/-- Accumulator loop of `np.argmax`: scan the remaining entries, keeping the
index and value of the current maximum; a tie keeps the earlier index. -/
def argmaxGo : List ℚ → Nat → ℚ → Nat → Nat
  | [], best, _, _ => best
  | y :: ys, best, bv, i =>
    if bv < y then argmaxGo ys i y (i + 1) else argmaxGo ys best bv (i + 1)

/-- `np.argmax`: index of the first maximal element (0 on an empty list,
which `recognize` never reaches). -/
def npArgmax : List ℚ → Nat
  | [] => 0
  | x :: xs => argmaxGo xs 0 x 1

/-- The stranger `MatchResult` the source builds: person id −1, the stranger
name, no group, the given similarity. -/
def strangerResult (sim : ℚ) : MatchResult :=
  { person_id := -1
    name := "陌生人"
    group_id := none
    group_name := none
    similarity := sim
    is_stranger := true }

/-- `FaceDatabase.recognize` (face_database.py lines 242-297).  An empty
registry — no feature matrix or no feature ids — yields the stranger result
with similarity 0.  Otherwise the row selected by `np.argmax` over the
similarities decides: below the threshold, a stranger carrying the best
similarity; else the person found in the `_persons` dict (`none` models the
`KeyError` of a missing id, unreachable in states the class builds). -/
def recognize (db : FaceDatabase) (query : List ℚ) : Option MatchResult :=
  match db.feature_matrix with
  | none => some (strangerResult 0)
  | some fm =>
    if db.feature_ids.length = 0 then some (strangerResult 0)
    else
      let sims := cosine_similarity fm query
      let maxIdx := npArgmax sims
      let maxSim := sims.getD maxIdx 0
      if maxSim < db.similarity_threshold then some (strangerResult maxSim)
      else
        match db.persons.lookup (db.feature_ids.getD maxIdx 0) with
        | some p =>
          some { person_id := p.person_id
                 name := p.name
                 group_id := p.group_id
                 group_name := p.group_name
                 similarity := maxSim
                 is_stranger := false }
        | none => none

/-- The Python strings used as cooldown subject keys, as an explicit value
type: `numeral p` stands for the decimal string `str(p)` of the int `p`.
Since `str` is injective on ints and no decimal numeral equals the literal
string "stranger", equality of `SubjectKey` values coincides with equality of
the source's key strings. -/
inductive SubjectKey where
  | stranger
  | numeral (p : Int)
deriving DecidableEq, Repr

/-- The key expression of `AlertCooldownManager` (face_recognizer.py lines
91 and 108): `str(person_id) if person_id else "stranger"` — both `None` and
the falsy int 0 fall to the "stranger" key. -/
def subject_key (person_id : Option Int) : SubjectKey :=
  match person_id with
  | none => SubjectKey.stranger
  | some p => if p = 0 then SubjectKey.stranger else SubjectKey.numeral p

/-- `AlertCooldownManager` state: `_last_alert_time` as an association list,
most recent binding first (dict assignment overwrites, lookup takes the first
hit). -/
structure AlertCooldownManager where
  cooldown_seconds : ℚ
  last_alert_time : List ((Int × SubjectKey) × ℚ)
deriving DecidableEq, Repr

/-- `self._last_alert_time.get(key, 0)`. -/
def lastAlertGet (m : AlertCooldownManager) (key : Int × SubjectKey) : ℚ :=
  match m.last_alert_time.lookup key with
  | some t => t
  | none => 0

/-- `AlertCooldownManager.can_alert` (face_recognizer.py lines 80-98):
re-alerting for the same (camera, subject) key is suppressed until the
cooldown elapses. -/
def can_alert (m : AlertCooldownManager) (camera_id : Int)
    (person_id : Option Int) (current_time : ℚ) : Bool :=
  if current_time - lastAlertGet m (camera_id, subject_key person_id) <
      m.cooldown_seconds then
    false
  else
    true

/-- `AlertCooldownManager.record_alert` (face_recognizer.py lines 100-109):
store the alert time under the (camera, subject) key. -/
def record_alert (m : AlertCooldownManager) (camera_id : Int)
    (person_id : Option Int) (now : ℚ) : AlertCooldownManager :=
  { m with last_alert_time :=
      ((camera_id, subject_key person_id), now) :: m.last_alert_time }

/-- Claim C1: de-escalation.  For an existing most-recent record that is not
already of type known, an event whose match resolved to a known person (so its
payload has `alert_type = known` and carries a saved face image path) sets the
record to type known, level info, status processed, replaces the stored best
face image, and `push_alert` is invoked exactly once. -/
theorem deescalation_known_event (ex : AlertLog) (d : AlertData) (now : ℚ)
    (new_id : Nat) (s : String)
    (_hnotknown : ex.alert_type ≠ AlertType.known)
    (hd : d.alert_type = AlertType.known)
    (hface : d.face_image = some s) (hs : s ≠ "") :
    (engine_alert_callback (some ex) d now new_id).record.alert_type = AlertType.known ∧
    (engine_alert_callback (some ex) d now new_id).record.alert_level = AlertLevel.info ∧
    (engine_alert_callback (some ex) d now new_id).record.status = AlertStatus.processed ∧
    (engine_alert_callback (some ex) d now new_id).record.face_image_path = some s ∧
    (engine_alert_callback (some ex) d now new_id).pushes = 1 := by
  have ht : strTruthy (some s) = true := by
    simp [strTruthy, hs]
  simp [engine_alert_callback, hd, merge_tail, hface, ht]

/-- Witness for C1 at a concrete record and payload. -/
theorem deescalation_known_event_witness :
    (engine_alert_callback
        (some { id := 5, track_id := some "42", camera_id := 1,
                alert_type := AlertType.stranger, alert_level := AlertLevel.critical,
                person_id := none, confidence := some 800,
                face_image_path := some "/static/old.jpg",
                best_body_image_path := none, full_image_path := none,
                image_history := [], status := AlertStatus.pending,
                extra_person_name := none, end_time := none, created_at := 0 })
        { track_id := "42", camera_id := 1, alert_type := AlertType.known,
          alert_level := AlertLevel.info, person_name := some "alice",
          face_image := some "/static/new.jpg", body_image := none,
          full_image := none, score := 900 }
        10 6).record.status = AlertStatus.processed := by
  have h := deescalation_known_event
    { id := 5, track_id := some "42", camera_id := 1,
      alert_type := AlertType.stranger, alert_level := AlertLevel.critical,
      person_id := none, confidence := some 800,
      face_image_path := some "/static/old.jpg",
      best_body_image_path := none, full_image_path := none,
      image_history := [], status := AlertStatus.pending,
      extra_person_name := none, end_time := none, created_at := 0 }
    { track_id := "42", camera_id := 1, alert_type := AlertType.known,
      alert_level := AlertLevel.info, person_name := some "alice",
      face_image := some "/static/new.jpg", body_image := none,
      full_image := none, score := 900 }
    10 6 "/static/new.jpg" (by decide) rfl rfl (by decide)
  exact h.2.2.1

/-- Claim C3 (amended): every alert record created on the first qualifying
event for a (camera id, track id) starts with status pending — including a
record created from an event that resolved to a known person; only the
merge path of a later event marks a record processed. -/
theorem creation_status_always_pending (d : AlertData) (now : ℚ) (new_id : Nat) :
    (engine_alert_callback none d now new_id).record.status = AlertStatus.pending := rfl

/-- Counterexample to claim C3 as stated: a record created from a
known-person event has status pending, not processed. -/
theorem creation_known_not_processed :
    (engine_alert_callback none
      { track_id := "42", camera_id := 1, alert_type := AlertType.known,
        alert_level := AlertLevel.info, person_name := some "alice",
        face_image := some "/static/f.jpg", body_image := none,
        full_image := none, score := 900 } 10 1).record.status ≠
      AlertStatus.processed := by decide

/-- Claim C7: silent update.  For an existing record, an event that triggers
neither the de-escalation branch (payload type known) nor the escalation
branch (record info and payload critical) emits no subscriber notification,
updates only the stored best images and the end time, and grows the image
history by exactly one entry; type, level, status and the other fields are
unchanged. -/
theorem silent_update_no_push (ex : AlertLog) (d : AlertData) (now : ℚ) (new_id : Nat)
    (h1 : d.alert_type ≠ AlertType.known)
    (h2 : ¬(ex.alert_level = AlertLevel.info ∧ d.alert_level = AlertLevel.critical)) :
    (engine_alert_callback (some ex) d now new_id).pushes = 0 ∧
    (engine_alert_callback (some ex) d now new_id).record.image_history =
      ex.image_history ++ [⟨now, d.face_image, d.score⟩] ∧
    (engine_alert_callback (some ex) d now new_id).record.image_history.length =
      ex.image_history.length + 1 ∧
    (engine_alert_callback (some ex) d now new_id).record.end_time = some now ∧
    (engine_alert_callback (some ex) d now new_id).record.face_image_path =
      (if strTruthy d.face_image then d.face_image else ex.face_image_path) ∧
    (engine_alert_callback (some ex) d now new_id).record.best_body_image_path =
      (if strTruthy d.body_image then d.body_image else ex.best_body_image_path) ∧
    (engine_alert_callback (some ex) d now new_id).record.alert_type = ex.alert_type ∧
    (engine_alert_callback (some ex) d now new_id).record.alert_level = ex.alert_level ∧
    (engine_alert_callback (some ex) d now new_id).record.status = ex.status ∧
    (engine_alert_callback (some ex) d now new_id).record.person_id = ex.person_id ∧
    (engine_alert_callback (some ex) d now new_id).record.confidence = ex.confidence ∧
    (engine_alert_callback (some ex) d now new_id).record.extra_person_name =
      ex.extra_person_name ∧
    (engine_alert_callback (some ex) d now new_id).record.id = ex.id := by
  simp only [engine_alert_callback, if_neg h1, if_neg h2, merge_tail]
  simp

/-- Witness for C7: a stranger/critical record receiving another
stranger/critical (image-only) update is not pushed and its history grows by
one. -/
theorem silent_update_no_push_witness :
    (engine_alert_callback
        (some { id := 5, track_id := some "42", camera_id := 1,
                alert_type := AlertType.stranger, alert_level := AlertLevel.critical,
                person_id := none, confidence := some 800,
                face_image_path := some "/static/old.jpg",
                best_body_image_path := none, full_image_path := none,
                image_history := [], status := AlertStatus.pending,
                extra_person_name := none, end_time := none, created_at := 0 })
        { track_id := "42", camera_id := 1, alert_type := AlertType.stranger,
          alert_level := AlertLevel.critical, person_name := none,
          face_image := some "/static/better.jpg", body_image := none,
          full_image := none, score := 950 }
        11 9).pushes = 0 ∧
    (engine_alert_callback
        (some { id := 5, track_id := some "42", camera_id := 1,
                alert_type := AlertType.stranger, alert_level := AlertLevel.critical,
                person_id := none, confidence := some 800,
                face_image_path := some "/static/old.jpg",
                best_body_image_path := none, full_image_path := none,
                image_history := [], status := AlertStatus.pending,
                extra_person_name := none, end_time := none, created_at := 0 })
        { track_id := "42", camera_id := 1, alert_type := AlertType.stranger,
          alert_level := AlertLevel.critical, person_name := none,
          face_image := some "/static/better.jpg", body_image := none,
          full_image := none, score := 950 }
        11 9).record.image_history.length = 0 + 1 := by
  have h := silent_update_no_push
    { id := 5, track_id := some "42", camera_id := 1,
      alert_type := AlertType.stranger, alert_level := AlertLevel.critical,
      person_id := none, confidence := some 800,
      face_image_path := some "/static/old.jpg",
      best_body_image_path := none, full_image_path := none,
      image_history := [], status := AlertStatus.pending,
      extra_person_name := none, end_time := none, created_at := 0 }
    { track_id := "42", camera_id := 1, alert_type := AlertType.stranger,
      alert_level := AlertLevel.critical, person_name := none,
      face_image := some "/static/better.jpg", body_image := none,
      full_image := none, score := 950 }
    11 9 (by decide) (by decide)
  exact ⟨h.1, h.2.2.1⟩

/-- Claim C2 (code bug): a record created from a body-only loitering event is
stored at level warning (manager decision), but the escalation branch of
`engine_alert_callback` tests `alert_level == INFO`, which a body-created
record never satisfies; a later face-confirmed critical stranger event
therefore takes the silent-update branch — the record keeps level warning and
its pending status, and no subscriber notification is emitted — instead of
the escalation the specification describes. -/
theorem body_then_face_no_escalation :
    (decide_alert 1
        { type := "BODY_DETECTED", track_id := 42, face_score := 0,
          body_score := 500, alert_level := AlertLevel.warning,
          has_face_image := false }
        (compute_is_known
          { type := "BODY_DETECTED", track_id := 42, face_score := 0,
            body_score := 500, alert_level := AlertLevel.warning,
            has_face_image := false } none 60).1
        none none (some "/static/b1.jpg") (some "/static/u1.jpg")).alert_level =
      AlertLevel.warning ∧
    (engine_alert_callback none
        (decide_alert 1
          { type := "BODY_DETECTED", track_id := 42, face_score := 0,
            body_score := 500, alert_level := AlertLevel.warning,
            has_face_image := false }
          (compute_is_known
            { type := "BODY_DETECTED", track_id := 42, face_score := 0,
              body_score := 500, alert_level := AlertLevel.warning,
              has_face_image := false } none 60).1
          none none (some "/static/b1.jpg") (some "/static/u1.jpg"))
        10 1).record.alert_level = AlertLevel.warning ∧
    (engine_alert_callback
        (some (engine_alert_callback none
          (decide_alert 1
            { type := "BODY_DETECTED", track_id := 42, face_score := 0,
              body_score := 500, alert_level := AlertLevel.warning,
              has_face_image := false }
            (compute_is_known
              { type := "BODY_DETECTED", track_id := 42, face_score := 0,
                body_score := 500, alert_level := AlertLevel.warning,
                has_face_image := false } none 60).1
            none none (some "/static/b1.jpg") (some "/static/u1.jpg"))
          10 1).record)
        (decide_alert 1
          { type := "FACE_DETECTED", track_id := 42, face_score := 800,
            body_score := 500, alert_level := AlertLevel.critical,
            has_face_image := true }
          (compute_is_known
            { type := "FACE_DETECTED", track_id := 42, face_score := 800,
              body_score := 500, alert_level := AlertLevel.critical,
              has_face_image := true } (some (30, "x")) 60).1
          none (some "/static/f2.jpg") (some "/static/b2.jpg") (some "/static/u2.jpg"))
        20 2).pushes = 0 ∧
    (engine_alert_callback
        (some (engine_alert_callback none
          (decide_alert 1
            { type := "BODY_DETECTED", track_id := 42, face_score := 0,
              body_score := 500, alert_level := AlertLevel.warning,
              has_face_image := false }
            (compute_is_known
              { type := "BODY_DETECTED", track_id := 42, face_score := 0,
                body_score := 500, alert_level := AlertLevel.warning,
                has_face_image := false } none 60).1
            none none (some "/static/b1.jpg") (some "/static/u1.jpg"))
          10 1).record)
        (decide_alert 1
          { type := "FACE_DETECTED", track_id := 42, face_score := 800,
            body_score := 500, alert_level := AlertLevel.critical,
            has_face_image := true }
          (compute_is_known
            { type := "FACE_DETECTED", track_id := 42, face_score := 800,
              body_score := 500, alert_level := AlertLevel.critical,
              has_face_image := true } (some (30, "x")) 60).1
          none (some "/static/f2.jpg") (some "/static/b2.jpg") (some "/static/u2.jpg"))
        20 2).record.alert_level = AlertLevel.warning ∧
    (engine_alert_callback
        (some (engine_alert_callback none
          (decide_alert 1
            { type := "BODY_DETECTED", track_id := 42, face_score := 0,
              body_score := 500, alert_level := AlertLevel.warning,
              has_face_image := false }
            (compute_is_known
              { type := "BODY_DETECTED", track_id := 42, face_score := 0,
                body_score := 500, alert_level := AlertLevel.warning,
                has_face_image := false } none 60).1
            none none (some "/static/b1.jpg") (some "/static/u1.jpg"))
          10 1).record)
        (decide_alert 1
          { type := "FACE_DETECTED", track_id := 42, face_score := 800,
            body_score := 500, alert_level := AlertLevel.critical,
            has_face_image := true }
          (compute_is_known
            { type := "FACE_DETECTED", track_id := 42, face_score := 800,
              body_score := 500, alert_level := AlertLevel.critical,
              has_face_image := true } (some (30, "x")) 60).1
          none (some "/static/f2.jpg") (some "/static/b2.jpg") (some "/static/u2.jpg"))
        20 2).record.status = AlertStatus.pending := by decide

/-- Case analysis of `_should_save_face`: either it rejects and leaves the
track state unchanged, or it accepts, recording the emission time and score,
and then the cooldown override (at least +20% inside the window), the quality
floor 600 and the strict 5% improvement gate all hold. -/
theorem should_save_face_cases (cd : ℚ) (p : TrackedPerson) (t s : ℚ) :
    should_save_face cd p t s = (false, p) ∨
    (should_save_face cd p t s =
        (true, { p with last_save_time := t, saved_face_score := s }) ∧
      (t - p.last_save_time < cd → p.saved_face_score * (12/10) ≤ s) ∧
      600 ≤ s ∧ p.saved_face_score * (105/100) < s) := by
  unfold should_save_face
  split
  · left; rfl
  · rename_i h1
    split
    · left; rfl
    · rename_i h2
      split
      · rename_i h3
        right
        refine ⟨rfl, ?_, by linarith [not_lt.mp h2], h3⟩
        intro hcd
        rcases not_and_or.mp h1 with hc | hsc
        · exact absurd hcd hc
        · exact not_lt.mp hsc
      · left; rfl

/-- In every rejecting branch `_should_save_face` leaves the track state
unchanged. -/
theorem should_save_face_of_false (cd : ℚ) (p : TrackedPerson) (t s : ℚ)
    (h : (should_save_face cd p t s).1 = false) :
    (should_save_face cd p t s).2 = p := by
  rcases should_save_face_cases cd p t s with hc | hc
  · rw [hc]
  · rw [hc.1] at h
    exact absurd h (by simp)

/-- What an accepting run of `_should_save_face` guarantees. -/
theorem should_save_face_of_true (cd : ℚ) (p : TrackedPerson) (t s : ℚ)
    (h : (should_save_face cd p t s).1 = true) :
    (t - p.last_save_time < cd → p.saved_face_score * (12/10) ≤ s) ∧
    600 ≤ s ∧ p.saved_face_score * (105/100) < s ∧
    (should_save_face cd p t s).2 =
      { p with last_save_time := t, saved_face_score := s } := by
  rcases should_save_face_cases cd p t s with hc | hc
  · rw [hc] at h
    exact absurd h (by simp)
  · exact ⟨hc.2.1, hc.2.2.1, hc.2.2.2, by rw [hc.1]⟩

/-- `update_face` changes only `best_face_score`. -/
theorem update_face_fields (p : TrackedPerson) (conf : ℚ) :
    (update_face p conf).last_save_time = p.last_save_time ∧
    (update_face p conf).saved_face_score = p.saved_face_score ∧
    (update_face p conf).is_stranger_body_reported = p.is_stranger_body_reported ∧
    (update_face p conf).start_time = p.start_time := by
  unfold update_face
  split <;> simp

/-- `loiter_check` changes only the loitering flag. -/
theorem loiter_check_fields (p : TrackedPerson) (t : ℚ) :
    ((loiter_check p t).1).last_save_time = p.last_save_time ∧
    ((loiter_check p t).1).saved_face_score = p.saved_face_score := by
  unfold loiter_check
  split <;> simp

/-- The loitering check fires only from an unflagged state and always leaves
the flag set exactly when it was set or it fired. -/
theorem loiter_check_flag (p : TrackedPerson) (t : ℚ) :
    ((loiter_check p t).2 = true → p.is_stranger_body_reported = false) ∧
    ((loiter_check p t).1).is_stranger_body_reported =
      (p.is_stranger_body_reported || (loiter_check p t).2) := by
  unfold loiter_check
  split
  · rename_i hc
    exact ⟨fun _ => hc.2.2, by simp⟩
  · simp

/-- The face phase preserves the loitering flag and the start time. -/
theorem face_phase_flag (cd : ℚ) (p : TrackedPerson) (o : TrackObs) :
    ((face_phase cd p o).1).is_stranger_body_reported = p.is_stranger_body_reported ∧
    ((face_phase cd p o).1).start_time = p.start_time := by
  unfold face_phase
  cases o.face_conf with
  | none => exact ⟨rfl, rfl⟩
  | some conf =>
    simp only
    rcases h : (should_save_face cd (update_face p conf) o.time (conf * 1000)).1 with _ | _
    · rw [should_save_face_of_false _ _ _ _ h]
      exact ⟨(update_face_fields p conf).2.2.1, (update_face_fields p conf).2.2.2⟩
    · rw [(should_save_face_of_true _ _ _ _ h).2.2.2]
      exact ⟨(update_face_fields p conf).2.2.1, (update_face_fields p conf).2.2.2⟩

/-- The face phase emits no BODY_DETECTED events. -/
theorem face_phase_no_body (cd : ℚ) (p : TrackedPerson) (o : TrackObs) :
    bodyEventCount (face_phase cd p o).2 = 0 := by
  unfold face_phase bodyEventCount
  cases o.face_conf with
  | none => rfl
  | some conf =>
    simp only
    split <;> rfl

/-- `faceEmissions` distributes over append. -/
theorem faceEmissions_append (a b : List TrackerEventKind) :
    faceEmissions (a ++ b) = faceEmissions a ++ faceEmissions b :=
  List.filterMap_append a b _

/-- `bodyEventCount` distributes over append. -/
theorem bodyEventCount_append (a b : List TrackerEventKind) :
    bodyEventCount (a ++ b) = bodyEventCount a + bodyEventCount b :=
  List.countP_append _ a b

/-- A possible BODY_DETECTED emission contributes no face emission. -/
theorem faceEmissions_body_ite (b : Bool) (t : ℚ) :
    faceEmissions (if b then [TrackerEventKind.body t] else []) = [] := by
  cases b <;> rfl

/-- One frame of a track either emits no face event and keeps the save state,
or emits exactly one face event at the current score, recording it, with the
guarantees of `_should_save_face`. -/
theorem track_frame_face_step (cd : ℚ) (p : TrackedPerson) (o : TrackObs) :
    (faceEmissions (track_frame cd p o).2 = [] ∧
      ((track_frame cd p o).1).last_save_time = p.last_save_time ∧
      ((track_frame cd p o).1).saved_face_score = p.saved_face_score) ∨
    (∃ c, o.face_conf = some c ∧
      faceEmissions (track_frame cd p o).2 = [(o.time, c * 1000)] ∧
      ((track_frame cd p o).1).last_save_time = o.time ∧
      ((track_frame cd p o).1).saved_face_score = c * 1000 ∧
      (o.time - p.last_save_time < cd → p.saved_face_score * (12/10) ≤ c * 1000) ∧
      600 ≤ c * 1000 ∧ p.saved_face_score * (105/100) < c * 1000) := by
  unfold track_frame
  cases hfc : o.face_conf with
  | none =>
    left
    simp only [face_phase, hfc]
    refine ⟨?_, ?_, ?_⟩
    · rw [List.nil_append, faceEmissions_body_ite]
    · rw [(loiter_check_fields _ _).1]
    · rw [(loiter_check_fields _ _).2]
  | some conf =>
    simp only [face_phase, hfc]
    rcases should_save_face_cases cd
        (update_face { p with last_seen_time := o.time } conf) o.time (conf * 1000)
      with hc | hc
    · left
      rw [hc]
      refine ⟨?_, ?_, ?_⟩
      · simp only [Bool.false_eq_true, if_false, List.nil_append, faceEmissions_body_ite]
      · rw [(loiter_check_fields _ _).1,
            (update_face_fields { p with last_seen_time := o.time } conf).1]
      · rw [(loiter_check_fields _ _).2,
            (update_face_fields { p with last_seen_time := o.time } conf).2.1]
    · right
      refine ⟨conf, rfl, ?_, ?_, ?_, ?_, hc.2.2.1, ?_⟩
      · rw [hc.1]
        simp only [faceEmissions_append, faceEmissions_body_ite, List.append_nil]
        rfl
      · rw [hc.1, (loiter_check_fields _ _).1]
      · rw [hc.1, (loiter_check_fields _ _).2]
      · intro hcd
        have hl : (update_face { p with last_seen_time := o.time } conf).last_save_time =
            p.last_save_time :=
          (update_face_fields { p with last_seen_time := o.time } conf).1
        have hs : (update_face { p with last_seen_time := o.time } conf).saved_face_score =
            p.saved_face_score :=
          (update_face_fields { p with last_seen_time := o.time } conf).2.1
        have := hc.2.1
        rw [hl, hs] at this
        exact this hcd
      · have hs : (update_face { p with last_seen_time := o.time } conf).saved_face_score =
            p.saved_face_score :=
          (update_face_fields { p with last_seen_time := o.time } conf).2.1
        have := hc.2.2.2
        rw [hs] at this
        exact this

/-- One frame of a track either emits no body event and preserves the
loitering flag, or — only from an unflagged state — emits exactly one body
event and sets the flag. -/
theorem track_frame_body_step (cd : ℚ) (p : TrackedPerson) (o : TrackObs) :
    bodyEventCount (track_frame cd p o).2 +
      (if ((track_frame cd p o).1).is_stranger_body_reported then 0 else 1) ≤
    (if p.is_stranger_body_reported then 0 else 1) := by
  unfold track_frame
  have hff := (face_phase_flag cd { p with last_seen_time := o.time } o).1
  have hb := face_phase_no_body cd { p with last_seen_time := o.time } o
  have hl := loiter_check_flag (face_phase cd { p with last_seen_time := o.time } o).1 o.time
  simp only at *
  rw [bodyEventCount_append, hb]
  cases hfire : (loiter_check (face_phase cd { p with last_seen_time := o.time } o).1 o.time).2
  · rw [hl.2, hfire, Bool.or_false, hff]
    simp [bodyEventCount]
  · have hflag0 : p.is_stranger_body_reported = false := by
      rw [← hff]
      exact hl.1 hfire
    rw [hl.2, hfire, Bool.or_true, hflag0]
    simp [bodyEventCount]

/-- Over any run, the loitering flag bounds the number of BODY_DETECTED
emissions: an already-flagged track emits none, an unflagged track at most
one. -/
theorem run_track_body_count (cd : ℚ) (obss : List TrackObs) :
    ∀ p : TrackedPerson,
      bodyEventCount (run_track cd p obss).2 ≤
        (if p.is_stranger_body_reported then 0 else 1) := by
  induction obss with
  | nil =>
    intro p
    simp [run_track, bodyEventCount]
  | cons o rest ih =>
    intro p
    have hstep := track_frame_body_step cd p o
    have hrest := ih (track_frame cd p o).1
    simp only [run_track, bodyEventCount_append]
    cases hf1 : ((track_frame cd p o).1).is_stranger_body_reported <;>
      cases hf0 : p.is_stranger_body_reported <;>
        simp_all

/-- Invariant for the face-emission chain: starting from any track state, the
list of face emissions, with the stored save state prepended, is linked by
the cooldown/improvement relation of `_should_save_face`, and every emission
clears the quality floor. -/
theorem run_track_face_chain (cd : ℚ) (obss : List TrackObs) :
    ∀ p : TrackedPerson,
      (∀ e ∈ faceEmissions (run_track cd p obss).2, 600 ≤ e.2) ∧
      List.Chain' (fun a b : ℚ × ℚ =>
          (b.1 - a.1 < cd → a.2 * (12/10) ≤ b.2) ∧ a.2 * (105/100) ≤ b.2)
        ((p.last_save_time, p.saved_face_score) ::
          faceEmissions (run_track cd p obss).2) := by
  induction obss with
  | nil =>
    intro p
    simp [run_track, faceEmissions]
  | cons o rest ih =>
    intro p
    simp only [run_track, faceEmissions_append]
    rcases track_frame_face_step cd p o with ⟨h0, hl, hs⟩ | ⟨c, _, h1, hl, hs, hcd, hfloor, himp⟩
    · rw [h0, List.nil_append]
      have hih := ih (track_frame cd p o).1
      rw [hl, hs] at hih
      exact hih
    · rw [h1, List.singleton_append]
      have hih := ih (track_frame cd p o).1
      rw [hl, hs] at hih
      constructor
      · intro e he
        rcases List.mem_cons.mp he with rfl | he2
        · exact hfloor
        · exact hih.1 e he2
      · exact List.chain'_cons.mpr ⟨⟨hcd, le_of_lt himp⟩, hih.2⟩

/-- Claim C9: over the whole lifetime of a `TrackedPerson` entry — from
registration until eviction — at most one BODY_DETECTED loitering event is
emitted, and the loitering check fires only when the best face score is below
the quality floor 300, the dwell time exceeds the 1-second threshold, and the
track has not been flagged before. -/
theorem loitering_emits_once (cd start : ℚ) (tid : Int) (obss : List TrackObs) :
    bodyEventCount (run_track cd (TrackedPerson.register tid start) obss).2 ≤ 1 ∧
    (∀ (p : TrackedPerson) (t : ℚ), (loiter_check p t).2 = true →
      p.best_face_score < 300 ∧ t - p.start_time > 1 ∧
        p.is_stranger_body_reported = false) := by
  constructor
  · have h := run_track_body_count cd obss (TrackedPerson.register tid start)
    simpa [TrackedPerson.register] using h
  · intro p t h
    unfold loiter_check at h
    split at h
    · rename_i hcond
      exact hcond
    · exact absurd h (by simp)

/-- Claim C4 (amended): between consecutive FACE_DETECTED emissions of one
track, an emission inside the cooldown window requires the new score to be at
least 20% above the previously emitted score — equality is admitted, because
the source rejects with `current_score < saved * 1.2` — and independently
every emission clears the quality floor 600 and every later emission is at
least 5% above the previous one. -/
theorem face_emission_cooldown (cd start : ℚ) (tid : Int) (obss : List TrackObs) :
    (∀ e ∈ faceEmissions (run_track cd (TrackedPerson.register tid start) obss).2,
        600 ≤ e.2) ∧
    List.Chain' (fun a b : ℚ × ℚ =>
        (b.1 - a.1 < cd → a.2 * (12/10) ≤ b.2) ∧ a.2 * (105/100) ≤ b.2)
      (faceEmissions (run_track cd (TrackedPerson.register tid start) obss).2) := by
  have h := run_track_face_chain cd obss (TrackedPerson.register tid start)
  exact ⟨h.1, h.2.tail⟩

/-- Counterexample to claim C4 as stated: with cooldown 60, a fresh track
emits at score 600, then 1 second later emits again at score 720 — exactly
+20%, inside the cooldown window, without exceeding the previous score by
MORE than 20%. -/
theorem face_emission_cooldown_cex :
    faceEmissions (run_track 60 (TrackedPerson.register 1 0)
        [⟨10, some (3/5)⟩, ⟨11, some (18/25)⟩]).2 = [(10, 600), (11, 720)] ∧
    (11 : ℚ) - 10 < 60 ∧ ¬ (600 * (12/10) < (720 : ℚ)) := by
  refine ⟨?_, by norm_num, by norm_num⟩
  norm_num [run_track, track_frame, face_phase, update_face, should_save_face,
    loiter_check, faceEmissions, TrackedPerson.register]
  rfl

/-- With capacity `C ≥ 1` and at most `C` buffered frames, the queue after
any producer burst holds exactly the most recent `min C total` frames. -/
theorem enqueue_all_items {α : Type} (C : Nat) (hC : 1 ≤ C) :
    ∀ (fs : List α) (q : FrameQueue α), q.maxsize = C → q.items.length ≤ C →
      (enqueue_all q fs).items =
        (q.items ++ fs).drop ((q.items ++ fs).length - C) := by
  intro fs
  induction fs with
  | nil =>
    intro q hm hl
    simp only [enqueue_all, List.foldl_nil, List.append_nil]
    rw [Nat.sub_eq_zero_of_le hl, List.drop_zero]
  | cons f fs ih =>
    intro q hm hl
    obtain ⟨m, its⟩ := q
    simp only at hm hl
    subst hm
    rcases lt_or_eq_of_le hl with hlt | heq
    · have hpush : push_frame ⟨m, its⟩ f = ⟨m, its ++ [f]⟩ := by
        simp only [push_frame]
        rw [if_neg (by omega : ¬(0 < m ∧ m ≤ its.length))]
      have hrec := ih ⟨m, its ++ [f]⟩ rfl
        (by simp only [List.length_append, List.length_singleton]; omega)
      simp only [enqueue_all, List.foldl_cons] at hrec ⊢
      rw [hpush, hrec]
      simp only [List.append_assoc, List.singleton_append]
    · cases its with
      | nil =>
        exfalso
        simp only [List.length_nil] at heq
        omega
      | cons h rest =>
        have hr : rest.length + 1 = m := by simpa using heq
        have hpush : push_frame ⟨m, h :: rest⟩ f = ⟨m, rest ++ [f]⟩ := by
          simp only [push_frame, List.length_cons]
          rw [if_pos (by omega : 0 < m ∧ m ≤ rest.length + 1),
            if_neg (by omega : ¬(0 < m ∧ m ≤ rest.length))]
        have hrec := ih ⟨m, rest ++ [f]⟩ rfl
          (by simp only [List.length_append, List.length_singleton]; omega)
        simp only [enqueue_all, List.foldl_cons] at hrec ⊢
        rw [hpush, hrec]
        have e1 : (rest ++ [f]) ++ fs = rest ++ f :: fs := by simp
        have e2 : (h :: rest) ++ f :: fs = h :: (rest ++ f :: fs) := by simp
        rw [e1, e2]
        have e3 : (h :: (rest ++ f :: fs)).length - m =
            ((rest ++ f :: fs).length - m) + 1 := by
          simp only [List.length_cons, List.length_append]
          omega
        rw [e3, List.drop_succ_cons]

/-- Claim C5: drop-oldest.  For a `FrameSource` queue of capacity `C ≥ 1`,
after `C + 1` enqueues with no consumer the queue holds exactly `C` frames,
and they are the `C` most recently produced ones: the oldest frame was
evicted. -/
theorem frame_queue_drop_oldest {α : Type} (C : Nat) (hC : 1 ≤ C)
    (fs : List α) (hlen : fs.length = C + 1) :
    (enqueue_all ⟨C, []⟩ fs).items.length = C ∧
    (enqueue_all ⟨C, []⟩ fs).items = fs.drop 1 := by
  have h := enqueue_all_items C hC fs ⟨C, []⟩ rfl (by simp)
  simp only [List.nil_append] at h
  rw [hlen] at h
  have e : C + 1 - C = 1 := by omega
  rw [e] at h
  refine ⟨?_, h⟩
  rw [h, List.length_drop, hlen]
  omega

/-- Witness for C5 with capacity 2 and three frames: the queue keeps the two
most recent. -/
theorem frame_queue_drop_oldest_witness :
    (enqueue_all (⟨2, []⟩ : FrameQueue Nat) [1, 2, 3]).items.length = 2 ∧
    (enqueue_all (⟨2, []⟩ : FrameQueue Nat) [1, 2, 3]).items = [2, 3] := by
  have h := frame_queue_drop_oldest 2 (by decide) [1, 2, 3] rfl
  exact ⟨h.1, by rw [h.2]; rfl⟩

/-- Nonnegativity and the cap: with `b ≥ 1` and `0 ≤ r ≤ M`, every wait stays
in `[0, M]`. -/
theorem reconnect_wait_bounds (r b M : ℚ) (hb : 1 ≤ b) (hr0 : 0 ≤ r)
    (hrM : r ≤ M) : ∀ n, 0 ≤ reconnect_wait r b M n ∧ reconnect_wait r b M n ≤ M := by
  intro n
  induction n with
  | zero => exact ⟨hr0, hrM⟩
  | succ n ih =>
    refine ⟨le_min ?_ ?_, min_le_right _ _⟩
    · exact mul_nonneg ih.1 (le_trans zero_le_one hb)
    · exact le_trans hr0 hrM

/-- Claim C6 (amended): with `reconnectBackoff ≥ 1` every wait is bounded by
`max reconnectInterval maxReconnectInterval`; when additionally
`0 ≤ reconnectInterval ≤ maxReconnectInterval` the waits are monotonically
non-decreasing and bounded by `maxReconnectInterval`; and with initial 1s,
multiplier 2 and max 60s, the n-th wait is `min (2 ^ n) 60`, i.e.
1, 2, 4, ..., 32, 60, 60, 60, .... -/
theorem reconnect_backoff_monotone_bounded (r b M : ℚ) (hb : 1 ≤ b) :
    (∀ n, reconnect_wait r b M n ≤ max r M) ∧
    (0 ≤ r → r ≤ M →
      (∀ n, reconnect_wait r b M n ≤ reconnect_wait r b M (n + 1)) ∧
      (∀ n, reconnect_wait r b M n ≤ M)) ∧
    (∀ n, reconnect_wait 1 2 60 n = min (2 ^ n) 60) := by
  refine ⟨?_, ?_, ?_⟩
  · intro n
    cases n with
    | zero => exact le_max_left r M
    | succ n => exact le_trans (min_le_right _ _) (le_max_right r M)
  · intro hr0 hrM
    refine ⟨?_, fun n => (reconnect_wait_bounds r b M hb hr0 hrM n).2⟩
    intro n
    have hbd := reconnect_wait_bounds r b M hb hr0 hrM n
    refine le_min ?_ hbd.2
    exact le_mul_of_one_le_right hbd.1 hb
  · intro n
    induction n with
    | zero =>
      simp [reconnect_wait]
    | succ n ih =>
      show min (reconnect_wait 1 2 60 n * 2) 60 = min (2 ^ (n + 1)) 60
      rw [ih]
      rcases le_or_lt ((2 : ℚ) ^ n) 60 with h | h
      · rw [min_eq_left h, pow_succ]
      · have h1 : (60 : ℚ) ≤ 2 ^ n := le_of_lt h
        rw [min_eq_right h1, min_eq_right (by norm_num)]
        have h2 : (60 : ℚ) ≤ 2 ^ (n + 1) := by
          rw [pow_succ]
          nlinarith
        rw [min_eq_right h2]

/-- Counterexample to claim C6 as stated: with backoff multiplier 2 ≥ 1,
initial interval 100 and max 60, the first wait is 100 and the second is 60 —
the wait sequence decreases. -/
theorem reconnect_backoff_cex :
    (1 : ℚ) ≤ 2 ∧ reconnect_wait 100 2 60 0 = 100 ∧
    reconnect_wait 100 2 60 1 = 60 ∧
    ¬ (reconnect_wait 100 2 60 0 ≤ reconnect_wait 100 2 60 1) := by
  have h1 : reconnect_wait 100 2 60 1 = 60 := by
    show min ((100 : ℚ) * 2) 60 = 60
    rw [min_eq_right (by norm_num)]
  refine ⟨by norm_num, rfl, h1, ?_⟩
  rw [h1]
  show ¬ ((100 : ℚ) ≤ 60)
  norm_num

/-- Witness for C6 at the spec's example configuration 1s/2x/60s: the waits
reach and stay at the cap. -/
theorem reconnect_backoff_monotone_bounded_witness :
    reconnect_wait 1 2 60 2 = 4 ∧ reconnect_wait 1 2 60 6 = 60 ∧
    reconnect_wait 1 2 60 7 = 60 := by
  have h := (reconnect_backoff_monotone_bounded 1 2 60 (by norm_num)).2.2
  rw [h 2, h 6, h 7]
  norm_num

/-- Invariant of the `np.argmax` scan: if `best` points, within the scanned
prefix, at the first occurrence of the running maximum `bv`, the final answer
points at the first maximum of the whole list. -/
theorem argmaxGo_spec :
    ∀ (ys acc : List ℚ) (best : Nat) (bv : ℚ),
      best < acc.length → acc.getD best 0 = bv →
      (∀ k, k < acc.length → acc.getD k 0 ≤ bv) →
      (∀ k, k < best → acc.getD k 0 < bv) →
      argmaxGo ys best bv acc.length < (acc ++ ys).length ∧
      (∀ k, k < (acc ++ ys).length →
        (acc ++ ys).getD k 0 ≤ (acc ++ ys).getD (argmaxGo ys best bv acc.length) 0) ∧
      (∀ k, k < argmaxGo ys best bv acc.length →
        (acc ++ ys).getD k 0 < (acc ++ ys).getD (argmaxGo ys best bv acc.length) 0) := by
  intro ys
  induction ys with
  | nil =>
    intro acc best bv hb hv hmax hfirst
    simp only [argmaxGo, List.append_nil]
    refine ⟨hb, ?_, ?_⟩
    · intro k hk
      rw [hv]
      exact hmax k hk
    · intro k hk
      rw [hv]
      exact hfirst k hk
  | cons y ys ih =>
    intro acc best bv hb hv hmax hfirst
    rw [List.append_cons]
    simp only [argmaxGo]
    have hlen : (acc ++ [y]).length = acc.length + 1 := by simp
    by_cases hlt : bv < y
    · rw [if_pos hlt]
      have h1 : acc.length < (acc ++ [y]).length := by simp
      have h2 : (acc ++ [y]).getD acc.length 0 = y := by
        rw [List.getD_append_right _ _ _ _ (le_refl _)]
        simp
      have h3 : ∀ k, k < (acc ++ [y]).length → (acc ++ [y]).getD k 0 ≤ y := by
        intro k hk
        rw [hlen] at hk
        rcases Nat.lt_or_ge k acc.length with hk2 | hk2
        · rw [List.getD_append _ _ _ _ hk2]
          exact le_of_lt (lt_of_le_of_lt (hmax k hk2) hlt)
        · have hke : k = acc.length := by omega
          rw [hke, h2]
      have h4 : ∀ k, k < acc.length → (acc ++ [y]).getD k 0 < y := by
        intro k hk
        rw [List.getD_append _ _ _ _ hk]
        exact lt_of_le_of_lt (hmax k hk) hlt
      have hres := ih (acc ++ [y]) acc.length y h1 h2 h3 h4
      rw [hlen] at hres
      exact hres
    · rw [if_neg hlt]
      have h1 : best < (acc ++ [y]).length := by
        rw [hlen]
        omega
      have h2 : (acc ++ [y]).getD best 0 = bv := by
        rw [List.getD_append _ _ _ _ hb]
        exact hv
      have h3 : ∀ k, k < (acc ++ [y]).length → (acc ++ [y]).getD k 0 ≤ bv := by
        intro k hk
        rw [hlen] at hk
        rcases Nat.lt_or_ge k acc.length with hk2 | hk2
        · rw [List.getD_append _ _ _ _ hk2]
          exact hmax k hk2
        · have hke : k = acc.length := by omega
          have h2y : (acc ++ [y]).getD acc.length 0 = y := by
            rw [List.getD_append_right _ _ _ _ (le_refl _)]
            simp
          rw [hke, h2y]
          exact not_lt.mp hlt
      have h4 : ∀ k, k < best → (acc ++ [y]).getD k 0 < bv := by
        intro k hk
        rw [List.getD_append _ _ _ _ (lt_trans hk hb)]
        exact hfirst k hk
      have hres := ih (acc ++ [y]) best bv h1 h2 h3 h4
      rw [hlen] at hres
      exact hres

/-- `np.argmax` on a nonempty list returns a valid index of a maximal
element, and every earlier entry is strictly smaller (first-maximum tie
break). -/
theorem npArgmax_spec (l : List ℚ) (hl : l ≠ []) :
    npArgmax l < l.length ∧
    (∀ k, k < l.length → l.getD k 0 ≤ l.getD (npArgmax l) 0) ∧
    (∀ k, k < npArgmax l → l.getD k 0 < l.getD (npArgmax l) 0) := by
  cases l with
  | nil => exact absurd rfl hl
  | cons x xs =>
    have h := argmaxGo_spec xs [x] 0 x (by simp) (by simp)
      (by
        intro k hk
        simp only [List.length_singleton, Nat.lt_one_iff] at hk
        subst hk
        simp)
      (by intro k hk; exact absurd hk (Nat.not_lt_zero k))
    simpa [npArgmax] using h

/-- Claim C8: stranger decision.  On an empty registry (no feature matrix or
no feature ids) `recognize` returns the stranger result with similarity 0.
Otherwise, for a well-formed registry, the returned result carries the best
cosine similarity over the registry, is a stranger iff that best similarity
is below the configured threshold, and a non-stranger result names the person
at the FIRST row attaining the maximum (ties resolved to the first). -/
theorem recognize_stranger_decision (db : FaceDatabase) (query : List ℚ) :
    (db.feature_matrix = none ∨ db.feature_ids = [] →
      recognize db query = some (strangerResult 0) ∧
      (strangerResult 0).is_stranger = true ∧ (strangerResult 0).similarity = 0) ∧
    (∀ fm, db.feature_matrix = some fm → fm ≠ [] →
      db.feature_ids.length = fm.length →
      (∀ i, i ∈ db.feature_ids →
        ∃ p, db.persons.lookup i = some p ∧ p.person_id = i) →
      ∃ r, recognize db query = some r ∧
        r.similarity =
          (cosine_similarity fm query).getD (npArgmax (cosine_similarity fm query)) 0 ∧
        (∀ s ∈ cosine_similarity fm query, s ≤ r.similarity) ∧
        (r.is_stranger = true ↔ r.similarity < db.similarity_threshold) ∧
        (r.is_stranger = false →
          r.person_id =
            db.feature_ids.getD (npArgmax (cosine_similarity fm query)) 0 ∧
          ∀ j, j < npArgmax (cosine_similarity fm query) →
            (cosine_similarity fm query).getD j 0 < r.similarity)) := by
  constructor
  · intro h
    rcases h with hm | hi
    · simp [recognize, hm, strangerResult]
    · cases hmm : db.feature_matrix with
      | none => simp [recognize, hmm, strangerResult]
      | some fm => simp [recognize, hmm, hi, strangerResult]
  · intro fm hfm hfmne hlen hlook
    have hfml : 0 < fm.length := List.length_pos.mpr hfmne
    have hsimslen : (cosine_similarity fm query).length = fm.length :=
      List.length_map _ _
    have hsimsne : cosine_similarity fm query ≠ [] :=
      List.ne_nil_of_length_pos (by rw [hsimslen]; exact hfml)
    have hspec := npArgmax_spec (cosine_similarity fm query) hsimsne
    have hidslen0 : ¬ db.feature_ids.length = 0 := by
      rw [hlen]
      omega
    have hidx : npArgmax (cosine_similarity fm query) < db.feature_ids.length := by
      rw [hlen, ← hsimslen]
      exact hspec.1
    simp only [recognize, hfm]
    rw [if_neg hidslen0]
    by_cases hlt :
        (cosine_similarity fm query).getD (npArgmax (cosine_similarity fm query)) 0 <
          db.similarity_threshold
    · rw [if_pos hlt]
      refine ⟨strangerResult _, rfl, rfl, ?_, ?_, ?_⟩
      · intro s hs
        rcases List.mem_iff_getElem.mp hs with ⟨i, hi, rfl⟩
        have hle := hspec.2.1 i hi
        rw [List.getD_eq_getElem _ _ hi] at hle
        exact hle
      · simpa [strangerResult] using hlt
      · intro hfalse
        simp [strangerResult] at hfalse
    · rw [if_neg hlt]
      have hmem : db.feature_ids.getD (npArgmax (cosine_similarity fm query)) 0 ∈
          db.feature_ids := by
        rw [List.getD_eq_getElem db.feature_ids 0 hidx]
        exact List.getElem_mem hidx
      rcases hlook _ hmem with ⟨p, hp, hpid⟩
      rw [hp]
      refine ⟨_, rfl, rfl, ?_, ?_, ?_⟩
      · intro s hs
        rcases List.mem_iff_getElem.mp hs with ⟨i, hi, rfl⟩
        have hle := hspec.2.1 i hi
        rw [List.getD_eq_getElem _ _ hi] at hle
        exact hle
      · constructor
        · intro hft
          exact absurd hft (by simp)
        · intro hcon
          exact absurd hcon hlt
      · intro _
        refine ⟨hpid, ?_⟩
        intro j hj
        exact hspec.2.2 j hj

/-- Witness for C8: a one-person registry and a query matching its row above
the threshold yields a non-stranger result with the computed similarity. -/
theorem recognize_stranger_decision_witness :
    ∃ r, recognize
        { similarity_threshold := 3
          persons := [(1, { person_id := 1, name := "alice", group_id := none,
                            group_name := none, embeddings := [[2, 0]] })]
          feature_matrix := some [[2, 0]]
          feature_ids := [1] } [2, 0] = some r ∧
      r.is_stranger = false ∧ r.similarity = 4 := by
  have h := (recognize_stranger_decision
    { similarity_threshold := 3
      persons := [(1, { person_id := 1, name := "alice", group_id := none,
                        group_name := none, embeddings := [[2, 0]] })]
      feature_matrix := some [[2, 0]]
      feature_ids := [1] } [2, 0]).2 [[2, 0]] rfl (by decide) (by decide)
    (by
      intro i hi
      have hi1 : i = 1 := by simpa using hi
      subst hi1
      exact ⟨{ person_id := 1, name := "alice", group_id := none,
               group_name := none, embeddings := [[2, 0]] }, rfl, rfl⟩)
  obtain ⟨r, hr, hsim, -, hiff, -⟩ := h
  have hms : (cosine_similarity [[2, 0]] [2, 0]).getD
      (npArgmax (cosine_similarity [[2, 0]] [2, 0])) 0 = 4 := by
    show ((2 : ℚ) * 2 + (0 * 0 + 0)) = 4
    norm_num
  rw [hms] at hsim
  refine ⟨r, hr, ?_, hsim⟩
  rcases hb : r.is_stranger with _ | _
  · rfl
  · have h4 := hiff.mp hb
    rw [hsim] at h4
    norm_num at h4

/-- Claim C10: cooldown subject-key collision.  `person_id = None` and
`person_id = 0` both map to the "stranger" subject key, so recording an alert
for the known person with id 0 suppresses stranger alerts on that camera for
the cooldown duration and vice versa, while any two distinct nonzero person
ids keep independent cooldown state. -/
theorem cooldown_subject_key_collision :
    (subject_key none = SubjectKey.stranger ∧
      subject_key (some 0) = SubjectKey.stranger) ∧
    (∀ (m : AlertCooldownManager) (cam : Int) (t u : ℚ),
      u - t < m.cooldown_seconds →
        can_alert (record_alert m cam (some 0) t) cam none u = false ∧
        can_alert (record_alert m cam none t) cam (some 0) u = false) ∧
    (∀ (p q : Int), p ≠ 0 → q ≠ 0 → p ≠ q →
      ∀ (m : AlertCooldownManager) (cam : Int) (t u : ℚ),
        can_alert (record_alert m cam (some p) t) cam (some q) u =
          can_alert m cam (some q) u) := by
  refine ⟨⟨rfl, rfl⟩, ?_, ?_⟩
  · intro m cam t u h
    constructor <;>
      simp [can_alert, record_alert, lastAlertGet, subject_key, List.lookup, h]
  · intro p q hp hq hpq m cam t u
    have hkey : ((cam, subject_key (some q)) == (cam, subject_key (some p))) = false := by
      simp only [subject_key, if_neg hp, if_neg hq]
      simp [hpq.symm]
    simp only [can_alert, record_alert, lastAlertGet, List.lookup, hkey]

/-- Witness for C10: with cooldown 60 and an alert recorded at time 0,
person id 0 and the stranger key suppress each other at time 30, while ids
2 and 3 do not interact. -/
theorem cooldown_subject_key_collision_witness :
    can_alert (record_alert ⟨60, []⟩ 1 (some 0) 0) 1 none 30 = false ∧
    can_alert (record_alert ⟨60, []⟩ 1 none 0) 1 (some 0) 30 = false ∧
    can_alert (record_alert ⟨60, []⟩ 1 (some 2) 0) 1 (some 3) 30 =
      can_alert (⟨60, []⟩ : AlertCooldownManager) 1 (some 3) 30 := by
  have h := cooldown_subject_key_collision
  exact ⟨(h.2.1 ⟨60, []⟩ 1 0 30 (by norm_num)).1,
    (h.2.1 ⟨60, []⟩ 1 0 30 (by norm_num)).2,
    h.2.2 2 3 (by decide) (by decide) (by decide) ⟨60, []⟩ 1 0 30⟩

/-- Witness for C4 on a concrete trace: the emission chain of a fresh track
over two observations satisfies the amended cooldown/improvement relation. -/
theorem face_emission_cooldown_witness :
    List.Chain' (fun a b : ℚ × ℚ =>
        (b.1 - a.1 < 60 → a.2 * (12/10) ≤ b.2) ∧ a.2 * (105/100) ≤ b.2)
      (faceEmissions (run_track 60 (TrackedPerson.register 1 0)
        [⟨10, some (3/5)⟩, ⟨11, some (18/25)⟩]).2) :=
  (face_emission_cooldown 60 0 1 [⟨10, some (3/5)⟩, ⟨11, some (18/25)⟩]).2

/-- Witness for C9 on a concrete trace: three faceless frames of a fresh
track emit at most one loitering event. -/
theorem loitering_emits_once_witness :
    bodyEventCount (run_track 60 (TrackedPerson.register 1 0)
      [⟨0, none⟩, ⟨2, none⟩, ⟨3, none⟩]).2 ≤ 1 :=
  (loitering_emits_once 60 0 1 [⟨0, none⟩, ⟨2, none⟩, ⟨3, none⟩]).1
